import Mathlib

/-!
Verification of the DPST (Display Power Savings Technology) state and
hardware-access controller from `i915_dpst.c`.

The embedding models the per-device DPST record (`dev_priv->dpst`) together
with the two histogram registers (`blm_hist_guard`, `blm_hist_ctl`) as a pure
state, and each driver entry point as a state-transforming function returning
the C status code (`0` for success, `-EINVAL` on failure).  Writes to the
auto-incrementing bin-data register and calls to
`intel_panel_actually_set_backlight` are recorded as traces, since the claims
speak about what was programmed into hardware and whether the live backlight
output was touched.
-/

/-- The C error code `-EINVAL` returned by every failing DPST operation. -/
def EINVAL : Int := -22

/-- Modelled from the spec: the missing platform header defines
`DPST_MAX_FACTOR` as the fixed-point backlight factor meaning 100%
(no reduction), i.e. 10000. -/
def DPST_MAX_FACTOR : Nat := 10000

/-- Modelled from the spec: the enhancement table has a fixed entry count
(`DPST_DIET_ENTRY_COUNT`); the i915 header uses 33. -/
def DPST_DIET_ENTRY_COUNT : Nat := 33

/-- Modelled from the spec: the histogram has `HIST_BIN_COUNT` bins; the
i915 header uses 32. -/
def HIST_BIN_COUNT : Nat := 32

/-- Modelled from the spec: histogram-collection enable bit of the control
register (missing header; bit position as in the i915 register layout). -/
def IE_HISTOGRAM_ENABLE : Nat := 2 ^ 31

/-- Modelled from the spec: enhancement-table enable bit of the control
register (missing header; bit position as in the i915 register layout). -/
def IE_MOD_TABLE_ENABLE : Nat := 2 ^ 27

/-- Modelled from the spec: HSV intensity mode bit of the control register
(missing header; bit position as in the i915 register layout). -/
def HSV_INTENSITY_MODE : Nat := 2 ^ 24

/-- Modelled from the spec: multiplicative enhancement mode field value
(`2 << 13` in the i915 register layout; missing header). -/
def ENHANCEMENT_MODE_MULT : Nat := 2 ^ 14

/-- Modelled from the spec: function-select bit choosing the image-enhancement
window of the bin register (missing header; i915 register layout). -/
def BIN_REG_FUNCTION_SELECT_IE : Nat := 2 ^ 11

/-- Modelled from the spec: mask of the bin-index field of the control
register (missing header; i915 register layout). -/
def BIN_REGISTER_INDEX_MASK : Nat := 0x7F

/-- Modelled from the spec: interrupt-enable bit of the guard register
(missing header; i915 register layout). -/
def HISTOGRAM_INTERRUPT_ENABLE : Nat := 2 ^ 31

/-- Modelled from the spec: pending-event status bit of the guard register
(missing header; i915 register layout). -/
def HISTOGRAM_EVENT_STATUS : Nat := 2 ^ 30

/-- Modelled from the spec: busy bit of a bin-data sample, indicating the
hardware swapped buffers mid-read (missing header; i915 register layout). -/
def BUSY_BIT : Nat := 2 ^ 31

/-- Modelled from the spec: mask extracting the count field of a bin-data
sample (missing header; i915 register layout). -/
def BIN_COUNT_MASK : Nat := 0x3FFFFF

/-- The 32-bit complement, the meaning of C `~mask` on a `u32` mask. -/
def NOT32 (m : Nat) : Nat := m ^^^ 0xFFFFFFFF

/-- Model of `dev_priv->dpst.saved`: snapshot of the backlight adjustment taken when
kernel suppression begins. -/
structure DpstSaved where
  is_valid : Bool
  blc_adjustment : Nat
deriving DecidableEq

/-- The DPST state: the fields of `dev_priv->dpst` the claims are about, the
two histogram registers, and two hardware write traces (`bin_writes` records
every value written to the auto-incrementing `blm_hist_bin` register,
`backlight_writes` every call to `intel_panel_actually_set_backlight`). -/
structure DpstState where
  user_enable : Bool
  kernel_disable : Bool
  enabled : Bool
  blc_adjustment : Nat
  saved : DpstSaved
  blm_hist_guard : Nat
  blm_hist_ctl : Nat
  bin_writes : List Nat
  backlight_writes : List Nat
deriving DecidableEq

/-- The environment a call runs in: whether the device has DPST
(`I915_HAS_DPST`), whether `get_intel_connector_on_edp` finds an eDP
connector, and the panel's stored raw backlight level
(`panel->backlight.level`). -/
structure DpstEnv where
  has_dpst : Bool
  edp_connector : Bool
  panel_level : Nat
deriving DecidableEq

/-- Model of `intel_panel_actually_set_backlight`: the external panel setter; recorded
as a trace entry. -/
def intel_panel_actually_set_backlight (s : DpstState) (level : Nat) : DpstState :=
  { s with backlight_writes := s.backlight_writes ++ [level] }

/-- Model of `i915_dpst_clear_hist_interrupt`: sets the event-status bit in the guard
register; always succeeds. -/
def i915_dpst_clear_hist_interrupt (s : DpstState) : DpstState × Int :=
  ({ s with blm_hist_guard := s.blm_hist_guard ||| HISTOGRAM_EVENT_STATUS }, 0)

/-- Model of `i915_dpst_enable_hist_interrupt`: marks DPST enabled, resets the
backlight adjustment to `DPST_MAX_FACTOR`, turns on histogram collection,
waits for vblank (no state effect), clears the pending bit, then arms the
interrupt.  Always returns 0. -/
def i915_dpst_enable_hist_interrupt (s : DpstState) : DpstState × Int :=
  let s1 := { s with enabled := true, blc_adjustment := DPST_MAX_FACTOR }
  let s2 := { s1 with blm_hist_ctl :=
    s1.blm_hist_ctl ||| (IE_HISTOGRAM_ENABLE ||| HSV_INTENSITY_MODE) }
  let s3 := { s2 with blm_hist_guard := s2.blm_hist_guard ||| HISTOGRAM_EVENT_STATUS }
  let s4 := { s3 with blm_hist_guard := s3.blm_hist_guard ||| HISTOGRAM_INTERRUPT_ENABLE }
  (s4, 0)

/-- Model of `i915_dpst_disable_hist_interrupt`: fails with `-EINVAL` if no eDP
connector is found; otherwise marks DPST disabled, resets the adjustment,
clears-and-disarms the guard register, clears the collection and
enhancement-table bits, and sets the backlight to the raw panel level. -/
def i915_dpst_disable_hist_interrupt (e : DpstEnv) (s : DpstState) : DpstState × Int :=
  if e.edp_connector = false then (s, EINVAL)
  else
    let s1 := { s with enabled := false, blc_adjustment := DPST_MAX_FACTOR }
    let s2 := { s1 with blm_hist_guard :=
      (s1.blm_hist_guard ||| HISTOGRAM_EVENT_STATUS) &&& NOT32 HISTOGRAM_INTERRUPT_ENABLE }
    let s3 := { s2 with blm_hist_ctl :=
      (s2.blm_hist_ctl &&& NOT32 IE_HISTOGRAM_ENABLE) &&& NOT32 IE_MOD_TABLE_ENABLE }
    (intel_panel_actually_set_backlight s3 e.panel_level, 0)

/-- Model of `i915_dpst_set_user_enable`: records the user flag; on enable fires the
hardware-enable sequence when neither gate blocks it; on disable
unconditionally invalidates the snapshot and, if currently enabled, fires
the hardware-disable sequence. -/
def i915_dpst_set_user_enable (e : DpstEnv) (s : DpstState) (enable : Bool) :
    DpstState × Int :=
  let s1 := { s with user_enable := enable }
  if enable then
    if !s1.kernel_disable && !s1.enabled then i915_dpst_enable_hist_interrupt s1
    else (s1, 0)
  else
    let s2 := { s1 with saved := { s1.saved with is_valid := false } }
    if s2.enabled then i915_dpst_disable_hist_interrupt e s2
    else (s2, 0)

/-- Model of `i915_dpst_set_brightness`: scales the given raw level by the stored
adjustment (`(val * adj / 100) / 100`) and writes it through the panel
setter; a no-op when there is no connector or DPST is not enabled. -/
def i915_dpst_set_brightness (e : DpstEnv) (s : DpstState) (brightness_val : Nat) :
    DpstState :=
  if e.edp_connector = false then s
  else if s.enabled = false then s
  else intel_panel_actually_set_backlight s
    (brightness_val * s.blc_adjustment / 100 / 100)

/-- Model of `i915_dpst_apply_luma`: fails without a connector or when the user has
disabled DPST; otherwise selects the enhancement window at index 0 and
programs the converted table (`factor * 0x200 / 10000` each).  If kernel
suppression is active it stores the backlight factor in the snapshot and
returns; otherwise it applies the backlight factor and enables the
enhancement table. -/
def i915_dpst_apply_luma (e : DpstEnv) (s : DpstState)
    (factors : Fin DPST_DIET_ENTRY_COUNT → Nat) (blc_factor : Nat) :
    DpstState × Int :=
  if e.edp_connector = false then (s, EINVAL)
  else if s.user_enable = false then (s, EINVAL)
  else
    let s1 := { s with blm_hist_ctl :=
      (s.blm_hist_ctl ||| BIN_REG_FUNCTION_SELECT_IE) &&& NOT32 BIN_REGISTER_INDEX_MASK }
    let s2 := { s1 with bin_writes :=
      s1.bin_writes ++ List.ofFn (fun i => factors i * 0x200 / 10000) }
    if s2.kernel_disable then
      ({ s2 with saved := { is_valid := true, blc_adjustment := blc_factor } }, 0)
    else
      let s3 := { s2 with blc_adjustment := blc_factor }
      let s4 := i915_dpst_set_brightness e s3 e.panel_level
      ({ s4 with blm_hist_ctl :=
        s4.blm_hist_ctl ||| (IE_MOD_TABLE_ENABLE ||| ENHANCEMENT_MODE_MULT) }, 0)

/-- Model of `i915_dpst_save_luma`: snapshots the backlight adjustment, but only when
the enhancement-table enable bit is set in hardware. -/
def i915_dpst_save_luma (s : DpstState) : DpstState :=
  if s.blm_hist_ctl &&& IE_MOD_TABLE_ENABLE = 0 then s
  else { s with saved := { is_valid := true, blc_adjustment := s.blc_adjustment } }

/-- Model of `i915_dpst_restore_luma`: if a connector exists and the snapshot is
valid, restores the adjustment, reapplies the scaled backlight, and
re-enables the enhancement table.  It does not invalidate the snapshot. -/
def i915_dpst_restore_luma (e : DpstEnv) (s : DpstState) : DpstState :=
  if e.edp_connector = false then s
  else if s.saved.is_valid = false then s
  else
    let s1 := { s with blc_adjustment := s.saved.blc_adjustment }
    let s2 := i915_dpst_set_brightness e s1 e.panel_level
    { s2 with blm_hist_ctl :=
      s2.blm_hist_ctl ||| (IE_MOD_TABLE_ENABLE ||| ENHANCEMENT_MODE_MULT) }

/-- Model of `i915_dpst_set_kernel_disable`: fails when the device has no DPST;
otherwise records the flag, then: when disabling while enabled, saves and
disables the hardware; when enabling while the user wants DPST on,
re-enables the hardware and restores the snapshot. -/
def i915_dpst_set_kernel_disable (e : DpstEnv) (s : DpstState) (disable : Bool) :
    DpstState × Int :=
  if e.has_dpst = false then (s, EINVAL)
  else
    let s1 := { s with kernel_disable := disable }
    if disable && s1.enabled then
      i915_dpst_disable_hist_interrupt e (i915_dpst_save_luma s1)
    else if !disable && s1.user_enable then
      let p := i915_dpst_enable_hist_interrupt s1
      if p.2 = 0 then (i915_dpst_restore_luma e p.1, p.2) else p
    else (s1, 0)

/-- The state of `i915_dpst_get_bin_data`'s read loop: the loop index, the
caller-owned output buffer (`ioctl_data->hist_status.histogram_bins.status`,
indexed by `Nat`), the in-flight value of the control register, and the
number of reads of the bin-data register performed so far. -/
@[ext]
structure BinLoopState where
  index : Nat
  buf : Nat → Nat
  ctl : Nat
  nreads : Nat

/-- The bin-read loop of `i915_dpst_get_bin_data`.  `reads k` is the value
the hardware returns for the k-th read of the bin-data register.  A clear
busy bit stores the masked count and advances; a set busy bit resets the
index field of the control register and restarts the scan at bin 0 (the C
sets `index = -1` and the `for` increment brings it back to 0).  The C loop
has no bound, so the embedding is fueled: `none` means the fuel ran out
before the loop finished. -/
def bin_loop (reads : Nat → Nat) : Nat → BinLoopState → Option BinLoopState
  | 0, _ => none
  | fuel + 1, st =>
    if HIST_BIN_COUNT ≤ st.index then some st
    else if reads st.nreads &&& BUSY_BIT = 0 then
      bin_loop reads fuel
        { st with
          buf := fun j => if j = st.index then reads st.nreads &&& BIN_COUNT_MASK
            else st.buf j
          index := st.index + 1
          nreads := st.nreads + 1 }
    else
      bin_loop reads fuel
        { st with
          index := 0
          ctl := st.ctl &&& NOT32 BIN_REGISTER_INDEX_MASK
          nreads := st.nreads + 1 }

/-- Model of `i915_dpst_get_bin_data`: returns `-EINVAL` (buffer and state untouched)
when DPST is neither enabled nor user-enabled; otherwise resets the bin
index and function-select fields and drains the bins via `bin_loop`.  The
result carries the post state, the output buffer, the number of register
reads performed, and the status; `none` means the unbounded retry loop did
not finish within the given fuel. -/
def i915_dpst_get_bin_data (reads : Nat → Nat) (fuel : Nat) (s : DpstState)
    (buf : Nat → Nat) : Option (DpstState × (Nat → Nat) × Nat × Int) :=
  if !s.enabled && !s.user_enable then some (s, buf, 0, EINVAL)
  else
    let ctl0 := s.blm_hist_ctl &&& NOT32 (BIN_REGISTER_INDEX_MASK ||| BIN_REG_FUNCTION_SELECT_IE)
    match bin_loop reads fuel { index := 0, buf := buf, ctl := ctl0, nreads := 0 } with
    | none => none
    | some st => some ({ s with blm_hist_ctl := st.ctl }, st.buf, st.nreads, 0)

/-- Model of `i915_dpst_update_registers`: resolves the register addresses for the
platform; only the success/failure outcome is modelled (the addresses
themselves are fixed in this embedding).  `supported` stands for
`IS_HASWELL(dev) || IS_VALLEYVIEW(dev)`. -/
def i915_dpst_update_registers (supported : Bool) : Int :=
  if supported then 0 else EINVAL

/-- Model of `i915_dpst_init`: after the display-mode query (which only writes the
caller's ioctl buffer), fails on an unsupported platform; otherwise programs
the guard-band delay and threshold into the guard register and requests
user enablement. -/
def i915_dpst_init (e : DpstEnv) (supported : Bool) (s : DpstState)
    (gb_delay threshold_gb : Nat) : DpstState × Int :=
  if i915_dpst_update_registers supported ≠ 0 then (s, EINVAL)
  else
    let s1 := { s with blm_hist_guard :=
      s.blm_hist_guard ||| ((gb_delay <<< 22) ||| threshold_gb) }
    i915_dpst_set_user_enable e s1 true

/-- The ioctl request decoded from `ioctl_data->dpst_ioctl_type`, carrying
the payload the corresponding handler reads from `ioctl_data`. -/
inductive DpstIoctl where
  | dpst_enable
  | dpst_disable
  | init_data (supported : Bool) (gb_delay threshold_gb : Nat)
  | get_bin_data
  | apply_luma (factors : Fin DPST_DIET_ENTRY_COUNT → Nat) (blc_factor : Nat)
  | reset_histogram_status
  | invalid

/-- Model of `i915_dpst_context`, the Command Dispatcher: rejects devices without
DPST, then dispatches on the ioctl type under the ioctl lock.  The result
carries the post state, the (possibly updated) histogram output buffer, and
the status code; `none` only for a histogram fetch whose unbounded retry
loop did not finish within the fuel. -/
def i915_dpst_context (e : DpstEnv) (reads : Nat → Nat) (fuel : Nat)
    (cmd : DpstIoctl) (s : DpstState) (buf : Nat → Nat) :
    Option (DpstState × (Nat → Nat) × Int) :=
  if e.has_dpst = false then some (s, buf, EINVAL)
  else
    match cmd with
    | .dpst_enable =>
      let p := i915_dpst_set_user_enable e s true
      some (p.1, buf, p.2)
    | .dpst_disable =>
      let p := i915_dpst_set_user_enable e s false
      some (p.1, buf, p.2)
    | .init_data supported g t =>
      let p := i915_dpst_init e supported s g t
      some (p.1, buf, p.2)
    | .get_bin_data =>
      match i915_dpst_get_bin_data reads fuel s buf with
      | none => none
      | some (s1, b1, _, r) => some (s1, b1, r)
    | .apply_luma f b =>
      let p := i915_dpst_apply_luma e s f b
      some (p.1, buf, p.2)
    | .reset_histogram_status =>
      let p := i915_dpst_clear_hist_interrupt s
      some (p.1, buf, p.2)
    | .invalid => some (s, buf, EINVAL)

/-- One call in a sequence of State Controller transitions: either
`i915_dpst_set_user_enable` or `i915_dpst_set_kernel_disable`. -/
inductive DpstOp where
  | setUserEnable (b : Bool)
  | setKernelDisable (b : Bool)
deriving DecidableEq

/-- The state reached after one State Controller call (return code
discarded). -/
def dpst_step (e : DpstEnv) (op : DpstOp) (s : DpstState) : DpstState :=
  match op with
  | .setUserEnable b => (i915_dpst_set_user_enable e s b).1
  | .setKernelDisable b => (i915_dpst_set_kernel_disable e s b).1

/-- The state reached after a sequence of State Controller calls, each with
its own environment. -/
def dpst_run (l : List (DpstEnv × DpstOp)) (s : DpstState) : DpstState :=
  l.foldl (fun s p => dpst_step p.1 p.2 s) s

/-- The derived-flag invariant of the data model:
`enabled == (user_enable && !kernel_disable)`. -/
def enabledInv (s : DpstState) : Prop :=
  s.enabled = (s.user_enable && !s.kernel_disable)

instance (s : DpstState) : Decidable (enabledInv s) := by
  unfold enabledInv; infer_instance

/-- The driver-attach state: all flags false, all counters zero, no writes
performed yet. -/
def dpst_init_state : DpstState :=
  { user_enable := false, kernel_disable := false, enabled := false
    blc_adjustment := 0, saved := { is_valid := false, blc_adjustment := 0 }
    blm_hist_guard := 0, blm_hist_ctl := 0, bin_writes := [], backlight_writes := [] }

/-- An environment with DPST support and an eDP connector present. -/
def e_conn : DpstEnv := { has_dpst := true, edp_connector := true, panel_level := 100 }

/-- An environment with DPST support but no eDP connector found. -/
def e_noconn : DpstEnv := { has_dpst := true, edp_connector := false, panel_level := 100 }

/-- A register backend whose bin-data reads never have the busy bit set. -/
def reads_clear : Nat → Nat := fun _ => 0

/-- A register backend whose bin-data reads always have the busy bit set. -/
def reads_busy : Nat → Nat := fun _ => BUSY_BIT

/-- A register backend whose first bin-data read is busy and all later reads
are clear. -/
def reads_busy_first : Nat → Nat := fun k => if k = 0 then BUSY_BIT else 0

/-- An all-zero histogram output buffer. -/
def buf0 : Nat → Nat := fun _ => 0

/-- A constant enhancement table (all factors 10000 = identity). -/
def factors0 : Fin DPST_DIET_ENTRY_COUNT → Nat := fun _ => 10000

/-- State after the user enables DPST from the attach state (connector
present): enabled, adjustment `DPST_MAX_FACTOR`. -/
def s_user_on : DpstState :=
  (i915_dpst_set_user_enable e_conn dpst_init_state true).1

/-- State after the agent applies settings with backlight factor 7000:
enhancement table enabled, `blc_adjustment = 7000`. -/
def s_applied : DpstState :=
  (i915_dpst_apply_luma e_conn s_user_on factors0 7000).1

/-- State after kernel suppression engages on `s_applied`: snapshot
`{is_valid := true, blc_adjustment := 7000}` taken, hardware disabled. -/
def s_suppressed : DpstState :=
  (i915_dpst_set_kernel_disable e_conn s_applied true).1

/-- State after kernel suppression disengages again: hardware re-enabled and
the snapshot restored. -/
def s_resumed : DpstState :=
  (i915_dpst_set_kernel_disable e_conn s_suppressed false).1

/-- State after the agent applies a new backlight factor 8000 on top of
`s_resumed` (the stale snapshot from the earlier suppression remains). -/
def s_reapplied : DpstState :=
  (i915_dpst_apply_luma e_conn s_resumed factors0 8000).1

/-- The dispatcher result of a `DPST_DISABLE` command issued while enabled
but with no eDP connector available. -/
def disable_noconn_res : Option (DpstState × (Nat → Nat) × Int) :=
  i915_dpst_context e_noconn reads_clear 1 DpstIoctl.dpst_disable s_user_on buf0

/-! ### Helper lemmas about register bits and the individual functions -/

theorem land_two_pow_ne_zero_iff (x k : Nat) :
    x &&& 2 ^ k ≠ 0 ↔ x.testBit k = true := by
  rw [Nat.and_two_pow]
  cases h : x.testBit k <;> simp [h]

theorem or_mod_table_bit (x : Nat) :
    (x ||| (IE_MOD_TABLE_ENABLE ||| ENHANCEMENT_MODE_MULT)) &&& IE_MOD_TABLE_ENABLE ≠ 0 := by
  rw [show IE_MOD_TABLE_ENABLE = 2 ^ 27 from rfl, land_two_pow_ne_zero_iff,
    Nat.testBit_lor, show Nat.testBit (2 ^ 27 ||| ENHANCEMENT_MODE_MULT) 27 = true by decide,
    Bool.or_true]

theorem select_ie_preserves_bit27 (x : Nat) :
    (((x ||| BIN_REG_FUNCTION_SELECT_IE) &&& NOT32 BIN_REGISTER_INDEX_MASK)).testBit 27
      = x.testBit 27 := by
  have h1 : Nat.testBit BIN_REG_FUNCTION_SELECT_IE 27 = false := by decide
  have h2 : Nat.testBit (NOT32 BIN_REGISTER_INDEX_MASK) 27 = true := by decide
  simp [Nat.testBit_land, Nat.testBit_lor, h1, h2]

theorem enable_hist_eq (s : DpstState) :
    i915_dpst_enable_hist_interrupt s =
      ({ s with
          enabled := true
          blc_adjustment := DPST_MAX_FACTOR
          blm_hist_ctl := s.blm_hist_ctl ||| (IE_HISTOGRAM_ENABLE ||| HSV_INTENSITY_MODE)
          blm_hist_guard := (s.blm_hist_guard ||| HISTOGRAM_EVENT_STATUS) |||
            HISTOGRAM_INTERRUPT_ENABLE }, 0) := rfl

theorem disable_hist_of_conn (e : DpstEnv) (s : DpstState)
    (hc : e.edp_connector = true) :
    i915_dpst_disable_hist_interrupt e s =
      ({ s with
          enabled := false
          blc_adjustment := DPST_MAX_FACTOR
          blm_hist_guard := (s.blm_hist_guard ||| HISTOGRAM_EVENT_STATUS) &&&
            NOT32 HISTOGRAM_INTERRUPT_ENABLE
          blm_hist_ctl := (s.blm_hist_ctl &&& NOT32 IE_HISTOGRAM_ENABLE) &&&
            NOT32 IE_MOD_TABLE_ENABLE
          backlight_writes := s.backlight_writes ++ [e.panel_level] }, 0) := by
  unfold i915_dpst_disable_hist_interrupt intel_panel_actually_set_backlight
  simp [hc]

theorem save_luma_of_bit (s : DpstState)
    (h : s.blm_hist_ctl &&& IE_MOD_TABLE_ENABLE ≠ 0) :
    i915_dpst_save_luma s =
      { s with saved := { is_valid := true, blc_adjustment := s.blc_adjustment } } := by
  unfold i915_dpst_save_luma
  rw [if_neg h]

theorem save_luma_flags (s : DpstState) :
    (i915_dpst_save_luma s).user_enable = s.user_enable ∧
    (i915_dpst_save_luma s).kernel_disable = s.kernel_disable ∧
    (i915_dpst_save_luma s).enabled = s.enabled ∧
    (i915_dpst_save_luma s).blc_adjustment = s.blc_adjustment ∧
    (i915_dpst_save_luma s).blm_hist_ctl = s.blm_hist_ctl := by
  unfold i915_dpst_save_luma
  split <;> simp

theorem restore_luma_flags (e : DpstEnv) (s : DpstState) :
    (i915_dpst_restore_luma e s).user_enable = s.user_enable ∧
    (i915_dpst_restore_luma e s).kernel_disable = s.kernel_disable ∧
    (i915_dpst_restore_luma e s).enabled = s.enabled ∧
    (i915_dpst_restore_luma e s).saved = s.saved := by
  unfold i915_dpst_restore_luma i915_dpst_set_brightness intel_panel_actually_set_backlight
  by_cases hc : e.edp_connector = false <;> by_cases hv : s.saved.is_valid = false <;>
    by_cases he : s.enabled = false <;> simp [hc, hv, he]

theorem restore_luma_of_valid (e : DpstEnv) (s : DpstState)
    (hc : e.edp_connector = true) (hv : s.saved.is_valid = true) :
    (i915_dpst_restore_luma e s).blc_adjustment = s.saved.blc_adjustment ∧
    (i915_dpst_restore_luma e s).blm_hist_ctl =
      s.blm_hist_ctl ||| (IE_MOD_TABLE_ENABLE ||| ENHANCEMENT_MODE_MULT) := by
  unfold i915_dpst_restore_luma i915_dpst_set_brightness intel_panel_actually_set_backlight
  by_cases he : s.enabled = false <;> simp [hc, hv, he]

theorem dpst_step_enabledInv (e : DpstEnv) (op : DpstOp) (s : DpstState)
    (hc : e.edp_connector = true) (h : enabledInv s) :
    enabledInv (dpst_step e op s) := by
  unfold enabledInv at h ⊢
  cases op with
  | setUserEnable b =>
    cases b <;> cases hkd : s.kernel_disable <;> cases hen : s.enabled <;>
      simp_all [dpst_step, i915_dpst_set_user_enable, enable_hist_eq, disable_hist_of_conn]
  | setKernelDisable b =>
    cases b <;> cases hd : e.has_dpst <;> cases hue : s.user_enable <;>
      cases hen : s.enabled <;>
      simp_all [dpst_step, i915_dpst_set_kernel_disable, enable_hist_eq,
        disable_hist_of_conn, save_luma_flags, restore_luma_flags]

/-- Claim C1 (amended): for every sequence of `i915_dpst_set_user_enable` and
`i915_dpst_set_kernel_disable` calls in which each call runs with an eDP
connector present, the invariant `enabled == (user_enable && !kernel_disable)`
holds after each call returns (every prefix of a sequence is itself a
sequence, so this covers each intermediate state). -/
theorem C1_enabledInv_of_connector (l : List (DpstEnv × DpstOp)) (s0 : DpstState)
    (hconn : ∀ p ∈ l, p.1.edp_connector = true) (h0 : enabledInv s0) :
    enabledInv (dpst_run l s0) := by
  induction l generalizing s0 with
  | nil => exact h0
  | cons p l ih =>
    exact ih (dpst_step p.1 p.2 s0)
      (fun q hq => hconn q (List.mem_cons_of_mem p hq))
      (dpst_step_enabledInv p.1 p.2 s0 (hconn p (List.mem_cons_self p l)) h0)

theorem C1_witness :
    enabledInv (dpst_run [(e_conn, DpstOp.setUserEnable true),
      (e_conn, DpstOp.setKernelDisable true)] dpst_init_state) :=
  C1_enabledInv_of_connector _ _ (by decide) (by decide)

/-- Claim C1 as stated is false: if a call runs while no eDP connector can be
found, the hardware-disable step fails before clearing `enabled`, so a
user-disable leaves `enabled = true` with `user_enable = false`.  The state
`s_user_on` is reached from attach by `set_user_enable(true)`. -/
theorem C1_counterexample :
    enabledInv s_user_on ∧
    ¬ enabledInv (dpst_step e_noconn (DpstOp.setUserEnable false) s_user_on) := by
  decide

theorem disable_hist_saved (e : DpstEnv) (s : DpstState) :
    (i915_dpst_disable_hist_interrupt e s).1.saved = s.saved := by
  unfold i915_dpst_disable_hist_interrupt intel_panel_actually_set_backlight
  by_cases hc : e.edp_connector = false <;> simp [hc]

theorem save_luma_is_valid (s : DpstState) :
    (i915_dpst_save_luma s).saved.is_valid =
      (s.saved.is_valid || !(s.blm_hist_ctl &&& IE_MOD_TABLE_ENABLE == 0)) := by
  unfold i915_dpst_save_luma
  by_cases h : s.blm_hist_ctl &&& IE_MOD_TABLE_ENABLE = 0 <;> simp [h]

theorem set_brightness_fields (e : DpstEnv) (s : DpstState) (v : Nat) :
    (i915_dpst_set_brightness e s v).user_enable = s.user_enable ∧
    (i915_dpst_set_brightness e s v).kernel_disable = s.kernel_disable ∧
    (i915_dpst_set_brightness e s v).enabled = s.enabled ∧
    (i915_dpst_set_brightness e s v).blc_adjustment = s.blc_adjustment ∧
    (i915_dpst_set_brightness e s v).saved = s.saved ∧
    (i915_dpst_set_brightness e s v).blm_hist_ctl = s.blm_hist_ctl ∧
    (i915_dpst_set_brightness e s v).bin_writes = s.bin_writes := by
  unfold i915_dpst_set_brightness intel_panel_actually_set_backlight
  by_cases hc : e.edp_connector = false <;> by_cases he : s.enabled = false <;>
    simp [hc, he]

/-- Claim C5 (amended): `saved.is_valid` is set exactly at the save events
(`set_kernel_disable(true)` while enabled with the enhancement-table bit on,
or a kernel-suppressed `apply_luma`), is cleared only by an explicit
user-disable (which clears it unconditionally), and is left unchanged by
every other call — in particular a restore (`set_kernel_disable(false)`)
re-applies the snapshot but does not invalidate it. -/
theorem C5_saved_validity_characterization :
    (∀ (e : DpstEnv) (s : DpstState),
      (i915_dpst_set_user_enable e s false).1.saved.is_valid = false) ∧
    (∀ (e : DpstEnv) (s : DpstState),
      (i915_dpst_set_user_enable e s true).1.saved.is_valid = s.saved.is_valid) ∧
    (∀ (e : DpstEnv) (s : DpstState),
      (i915_dpst_set_kernel_disable e s false).1.saved.is_valid = s.saved.is_valid) ∧
    (∀ (e : DpstEnv) (s : DpstState),
      (i915_dpst_set_kernel_disable e s true).1.saved.is_valid =
        (s.saved.is_valid || (e.has_dpst && s.enabled &&
          !(s.blm_hist_ctl &&& IE_MOD_TABLE_ENABLE == 0)))) ∧
    (∀ (e : DpstEnv) (s : DpstState) (f : Fin DPST_DIET_ENTRY_COUNT → Nat) (b : Nat),
      (i915_dpst_apply_luma e s f b).1.saved.is_valid =
        (s.saved.is_valid || (e.edp_connector && s.user_enable && s.kernel_disable))) := by
  refine ⟨?_, ?_, ?_, ?_, ?_⟩
  · intro e s
    unfold i915_dpst_set_user_enable
    by_cases hen : s.enabled = true <;> simp [hen, disable_hist_saved]
  · intro e s
    cases hkd : s.kernel_disable <;> cases hen : s.enabled <;>
      simp [i915_dpst_set_user_enable, hkd, hen, enable_hist_eq]
  · intro e s
    cases hd : e.has_dpst <;> cases hue : s.user_enable <;>
      simp [i915_dpst_set_kernel_disable, hd, hue, enable_hist_eq, restore_luma_flags]
  · intro e s
    cases hd : e.has_dpst <;> cases hen : s.enabled <;>
      simp [i915_dpst_set_kernel_disable, hd, hen, disable_hist_saved, save_luma_is_valid]
  · intro e s f b
    cases hc : e.edp_connector <;> cases hue : s.user_enable <;>
      cases hkd : s.kernel_disable <;>
      simp [i915_dpst_apply_luma, hc, hue, hkd, set_brightness_fields]

/-- Claim C5 as stated is false on the code: after the reachable sequence
attach → user-enable → apply(blc 7000) → kernel-disable(true) (save) →
kernel-disable(false) (restore; `blc_adjustment` is back to 7000, proving
the restore ran), `saved.is_valid` is still true even though the matching
restore has completed and no user-disable intervened. -/
theorem C5_counterexample :
    s_suppressed.saved.is_valid = true ∧
    s_resumed.blc_adjustment = 7000 ∧
    s_resumed.saved.is_valid = true := by
  decide

theorem set_user_enable_true_ret (e : DpstEnv) (s : DpstState) :
    (i915_dpst_set_user_enable e s true).2 = 0 := by
  unfold i915_dpst_set_user_enable
  by_cases h : s.kernel_disable = false <;> by_cases h2 : s.enabled = false <;>
    simp [h, h2, enable_hist_eq]

theorem set_user_enable_false_ret (e : DpstEnv) (s : DpstState)
    (hc : e.edp_connector = true) :
    (i915_dpst_set_user_enable e s false).2 = 0 := by
  unfold i915_dpst_set_user_enable
  by_cases h2 : s.enabled = true <;> simp [h2, disable_hist_of_conn, hc]

theorem set_kernel_disable_ret (e : DpstEnv) (s : DpstState) (d : Bool)
    (hd : e.has_dpst = true) (hc : e.edp_connector = true) :
    (i915_dpst_set_kernel_disable e s d).2 = 0 := by
  unfold i915_dpst_set_kernel_disable
  cases d <;> by_cases hue : s.user_enable = true <;> by_cases hen : s.enabled = true <;>
    simp [hd, hc, hue, hen, enable_hist_eq, disable_hist_of_conn]

/-- Claim C2 (amended): provided an eDP connector is present, every Command
Dispatcher operation that returns an error leaves the DPST state
(`user_enable`, `kernel_disable`, `enabled`, `blc_adjustment`, `saved`)
unchanged, and so does the collaborator-facing `set_kernel_disable`.
(Without a connector the disable paths record the flag and invalidate or
take the snapshot before the hardware-disable step fails, so the error does
not undo those writes — see the counterexample.) -/
theorem C2_error_leaves_state_unchanged :
    (∀ (e : DpstEnv) (reads : Nat → Nat) (fuel : Nat) (cmd : DpstIoctl)
       (s : DpstState) (buf : Nat → Nat) (out : DpstState × (Nat → Nat) × Int),
      e.edp_connector = true →
      i915_dpst_context e reads fuel cmd s buf = some out → out.2.2 ≠ 0 →
      out.1.user_enable = s.user_enable ∧ out.1.kernel_disable = s.kernel_disable ∧
      out.1.enabled = s.enabled ∧ out.1.blc_adjustment = s.blc_adjustment ∧
      out.1.saved = s.saved) ∧
    (∀ (e : DpstEnv) (s : DpstState) (d : Bool),
      e.edp_connector = true →
      (i915_dpst_set_kernel_disable e s d).2 ≠ 0 →
      (i915_dpst_set_kernel_disable e s d).1 = s) := by
  constructor
  · intro e reads fuel cmd s buf out hc hrun herr
    unfold i915_dpst_context at hrun
    by_cases hd : e.has_dpst = false
    · rw [if_pos hd] at hrun
      obtain rfl := Option.some.inj hrun
      exact ⟨rfl, rfl, rfl, rfl, rfl⟩
    · rw [if_neg hd] at hrun
      cases cmd with
      | dpst_enable =>
        simp only at hrun
        obtain rfl := Option.some.inj hrun
        exact absurd (set_user_enable_true_ret e s) herr
      | dpst_disable =>
        simp only at hrun
        obtain rfl := Option.some.inj hrun
        exact absurd (set_user_enable_false_ret e s hc) herr
      | init_data sup g t =>
        simp only at hrun
        obtain rfl := Option.some.inj hrun
        cases sup with
        | true =>
          exfalso
          apply herr
          show (i915_dpst_init e true s g t).2 = 0
          unfold i915_dpst_init i915_dpst_update_registers
          rw [if_neg (by decide)]
          exact set_user_enable_true_ret e _
        | false =>
          unfold i915_dpst_init i915_dpst_update_registers
          rw [if_pos (by decide)]
          exact ⟨rfl, rfl, rfl, rfl, rfl⟩
      | get_bin_data =>
        simp only at hrun
        unfold i915_dpst_get_bin_data at hrun
        by_cases hg : (!s.enabled && !s.user_enable) = true
        · rw [if_pos hg] at hrun
          obtain rfl := Option.some.inj hrun
          exact ⟨rfl, rfl, rfl, rfl, rfl⟩
        · rw [if_neg hg] at hrun
          simp only at hrun
          cases hloop : bin_loop reads fuel
              { index := 0, buf := buf,
                ctl := s.blm_hist_ctl &&&
                  NOT32 (BIN_REGISTER_INDEX_MASK ||| BIN_REG_FUNCTION_SELECT_IE),
                nreads := 0 } with
          | none => rw [hloop] at hrun; exact absurd hrun (by simp)
          | some st =>
            rw [hloop] at hrun
            obtain rfl := Option.some.inj hrun
            exact absurd rfl herr
      | apply_luma f b =>
        simp only at hrun
        obtain rfl := Option.some.inj hrun
        by_cases hue : s.user_enable = false
        · unfold i915_dpst_apply_luma
          rw [if_neg (by simp [hc]), if_pos hue]
          exact ⟨rfl, rfl, rfl, rfl, rfl⟩
        · exfalso
          apply herr
          show (i915_dpst_apply_luma e s f b).2 = 0
          unfold i915_dpst_apply_luma
          rw [if_neg (by simp [hc]), if_neg hue]
          by_cases hkd : s.kernel_disable = true <;> simp [hkd]
      | reset_histogram_status =>
        simp only at hrun
        obtain rfl := Option.some.inj hrun
        exact absurd rfl herr
      | invalid =>
        obtain rfl := Option.some.inj hrun
        exact ⟨rfl, rfl, rfl, rfl, rfl⟩
  · intro e s d hc herr
    by_cases hd : e.has_dpst = true
    · exact absurd (set_kernel_disable_ret e s d hd hc) herr
    · unfold i915_dpst_set_kernel_disable
      simp only [Bool.not_eq_true] at hd
      rw [if_pos hd]

theorem C2_witness :
    i915_dpst_context e_conn reads_clear 1 (DpstIoctl.apply_luma factors0 5000)
        dpst_init_state buf0 = some (dpst_init_state, buf0, EINVAL) ∧
    (dpst_init_state.user_enable = dpst_init_state.user_enable ∧
     dpst_init_state.kernel_disable = dpst_init_state.kernel_disable ∧
     dpst_init_state.enabled = dpst_init_state.enabled ∧
     dpst_init_state.blc_adjustment = dpst_init_state.blc_adjustment ∧
     dpst_init_state.saved = dpst_init_state.saved) :=
  ⟨rfl, C2_error_leaves_state_unchanged.1 e_conn reads_clear 1
    (DpstIoctl.apply_luma factors0 5000) dpst_init_state buf0
    (dpst_init_state, buf0, EINVAL) rfl rfl (by decide)⟩

/-- Claim C2 as stated is false on the code: a `DPST_DISABLE` dispatcher
command issued while enabled but with no eDP connector available returns
`-EINVAL`, yet has already flipped `user_enable` (and invalidated the
snapshot) before the hardware-disable step failed. -/
theorem C2_counterexample :
    disable_noconn_res.map (fun t => t.2.2) = some EINVAL ∧
    disable_noconn_res.map (fun t => t.1.user_enable) = some false ∧
    s_user_on.user_enable = true := by
  decide

/-- Claim C3: with an eDP connector present, `i915_dpst_apply_luma` returns
the invalid-state error (`-EINVAL`) if and only if `user_enable` is false,
for every value of `kernel_disable`, every enhancement table, and every
backlight factor.  (The only other `-EINVAL` exit is the
no-connector-available failure, excluded by the environment hypothesis.) -/
theorem C3_apply_luma_invalid_iff (e : DpstEnv) (s : DpstState)
    (f : Fin DPST_DIET_ENTRY_COUNT → Nat) (b : Nat)
    (hc : e.edp_connector = true) :
    (i915_dpst_apply_luma e s f b).2 = EINVAL ↔ s.user_enable = false := by
  unfold i915_dpst_apply_luma
  rw [if_neg (by simp [hc])]
  by_cases hue : s.user_enable = false
  · simp [hue]
  · rw [if_neg hue]
    by_cases hkd : s.kernel_disable = true <;> simp [hkd, hue, EINVAL]

theorem C3_witness :
    (i915_dpst_apply_luma e_conn dpst_init_state factors0 0).2 = EINVAL ↔
      dpst_init_state.user_enable = false :=
  C3_apply_luma_invalid_iff e_conn dpst_init_state factors0 0 rfl

/-- Claim C4: with a connector present, `user_enable = true` and
`kernel_disable = true`, `i915_dpst_apply_luma` programs the converted
enhancement table into the bin register, stores
`saved = {is_valid := true, blc_adjustment := blc_factor}`, and returns
success, while leaving `blc_adjustment` unchanged, performing no backlight
write, and leaving the enhancement-table-enable bit (bit 27 of the control
register) exactly as it was. -/
theorem C4_deferred_apply (e : DpstEnv) (s : DpstState)
    (f : Fin DPST_DIET_ENTRY_COUNT → Nat) (b : Nat)
    (hc : e.edp_connector = true) (hue : s.user_enable = true)
    (hkd : s.kernel_disable = true) :
    (i915_dpst_apply_luma e s f b).2 = 0 ∧
    (i915_dpst_apply_luma e s f b).1.saved =
      { is_valid := true, blc_adjustment := b } ∧
    (i915_dpst_apply_luma e s f b).1.bin_writes =
      s.bin_writes ++ List.ofFn (fun i => f i * 0x200 / 10000) ∧
    (i915_dpst_apply_luma e s f b).1.blc_adjustment = s.blc_adjustment ∧
    (i915_dpst_apply_luma e s f b).1.backlight_writes = s.backlight_writes ∧
    (i915_dpst_apply_luma e s f b).1.blm_hist_ctl.testBit 27 =
      s.blm_hist_ctl.testBit 27 := by
  have h1 : BIN_REG_FUNCTION_SELECT_IE.testBit 27 = false := by decide
  have h2 : (NOT32 BIN_REGISTER_INDEX_MASK).testBit 27 = true := by decide
  unfold i915_dpst_apply_luma
  simp [hc, hue, hkd, h1, h2]

theorem C4_witness :
    (i915_dpst_apply_luma e_conn s_suppressed factors0 4242).2 = 0 ∧
    (i915_dpst_apply_luma e_conn s_suppressed factors0 4242).1.saved =
      { is_valid := true, blc_adjustment := 4242 } ∧
    (i915_dpst_apply_luma e_conn s_suppressed factors0 4242).1.bin_writes =
      s_suppressed.bin_writes ++ List.ofFn (fun i => factors0 i * 0x200 / 10000) ∧
    (i915_dpst_apply_luma e_conn s_suppressed factors0 4242).1.blc_adjustment =
      s_suppressed.blc_adjustment ∧
    (i915_dpst_apply_luma e_conn s_suppressed factors0 4242).1.backlight_writes =
      s_suppressed.backlight_writes ∧
    (i915_dpst_apply_luma e_conn s_suppressed factors0 4242).1.blm_hist_ctl.testBit 27 =
      s_suppressed.blm_hist_ctl.testBit 27 :=
  C4_deferred_apply e_conn s_suppressed factors0 4242 rfl (by decide) (by decide)

/-- Claim C6: the save/restore round trip.  In an environment with DPST and
a connector, from a state with `enabled`, `user_enable` (forced in every
reachable enabled state by the `enabled ⇒ user_enable` invariant), the
enhancement-table bit set, and `blc_adjustment = X`, calling
`set_kernel_disable(true)` then `set_kernel_disable(false)` restores
`blc_adjustment = X`, sets the enhancement-table-enable bit again, and
leaves `user_enable` unchanged. -/
theorem C6_save_restore_round_trip (e : DpstEnv) (s : DpstState) (X : Nat)
    (hd : e.has_dpst = true) (hc : e.edp_connector = true)
    (hue : s.user_enable = true) (hen : s.enabled = true)
    (htbl : s.blm_hist_ctl &&& IE_MOD_TABLE_ENABLE ≠ 0)
    (hblc : s.blc_adjustment = X) :
    (i915_dpst_set_kernel_disable e
        (i915_dpst_set_kernel_disable e s true).1 false).1.blc_adjustment = X ∧
    (i915_dpst_set_kernel_disable e
        (i915_dpst_set_kernel_disable e s true).1 false).1.blm_hist_ctl &&&
      IE_MOD_TABLE_ENABLE ≠ 0 ∧
    (i915_dpst_set_kernel_disable e
        (i915_dpst_set_kernel_disable e s true).1 false).1.user_enable =
      s.user_enable := by
  simp [i915_dpst_set_kernel_disable, hd, hc, hue, hen, htbl, hblc,
    save_luma_of_bit, disable_hist_of_conn, enable_hist_eq,
    restore_luma_of_valid, restore_luma_flags, or_mod_table_bit]

theorem C6_witness :
    (i915_dpst_set_kernel_disable e_conn
        (i915_dpst_set_kernel_disable e_conn s_applied true).1 false).1.blc_adjustment
      = 7000 ∧
    (i915_dpst_set_kernel_disable e_conn
        (i915_dpst_set_kernel_disable e_conn s_applied true).1 false).1.blm_hist_ctl &&&
      IE_MOD_TABLE_ENABLE ≠ 0 ∧
    (i915_dpst_set_kernel_disable e_conn
        (i915_dpst_set_kernel_disable e_conn s_applied true).1 false).1.user_enable =
      s_applied.user_enable :=
  C6_save_restore_round_trip e_conn s_applied 7000 rfl rfl (by decide) (by decide)
    (by decide) (by decide)

/-- Claim C7 (amended): `i915_dpst_set_kernel_disable` keys off the current
flags, not off transitions.  (1) Its behavior is independent of the previous
`kernel_disable` value (the flag is overwritten before it is ever read);
(2) when neither `disable && enabled` nor `!disable && user_enable` holds it
only records the flag and returns 0; (3) `disable=true` while enabled saves
(validity ored with the table-enable bit) and disables the hardware;
(4) `disable=false` while `user_enable` re-enables the hardware and restores
the snapshot if valid — and it does so on *every* such call, including calls
that repeat the current flag value (see the counterexample). -/
theorem C7_level_triggered (e : DpstEnv) :
    (∀ (s : DpstState) (d b1 b2 : Bool),
      e.has_dpst = true →
      i915_dpst_set_kernel_disable e { s with kernel_disable := b1 } d =
        i915_dpst_set_kernel_disable e { s with kernel_disable := b2 } d) ∧
    (∀ (s : DpstState) (d : Bool),
      e.has_dpst = true → (d && s.enabled) = false → (!d && s.user_enable) = false →
      i915_dpst_set_kernel_disable e s d = ({ s with kernel_disable := d }, 0)) ∧
    (∀ s : DpstState,
      e.has_dpst = true → e.edp_connector = true → s.enabled = true →
      (i915_dpst_set_kernel_disable e s true).1.enabled = false ∧
      (i915_dpst_set_kernel_disable e s true).1.blc_adjustment = DPST_MAX_FACTOR ∧
      (i915_dpst_set_kernel_disable e s true).1.saved.is_valid =
        (s.saved.is_valid || !(s.blm_hist_ctl &&& IE_MOD_TABLE_ENABLE == 0)) ∧
      (i915_dpst_set_kernel_disable e s true).2 = 0) ∧
    (∀ s : DpstState,
      e.has_dpst = true → s.user_enable = true →
      (i915_dpst_set_kernel_disable e s false).1.enabled = true ∧
      (i915_dpst_set_kernel_disable e s false).1.blc_adjustment =
        (if e.edp_connector && s.saved.is_valid then s.saved.blc_adjustment
         else DPST_MAX_FACTOR) ∧
      (i915_dpst_set_kernel_disable e s false).2 = 0) := by
  refine ⟨?_, ?_, ?_, ?_⟩
  · intro s d b1 b2 hd
    simp [i915_dpst_set_kernel_disable, hd]
  · intro s d hd h1 h2
    unfold i915_dpst_set_kernel_disable
    simp [hd, h1, h2]
  · intro s hd hc hen
    unfold i915_dpst_set_kernel_disable
    simp [hd, hc, hen, disable_hist_of_conn, save_luma_is_valid, save_luma_flags,
      disable_hist_saved]
  · intro s hd hue
    unfold i915_dpst_set_kernel_disable
    simp only [hd, Bool.false_eq_true, if_false, hue, Bool.not_false, Bool.and_true,
      Bool.false_and, Bool.and_false]
    by_cases hcc : e.edp_connector = false
    · simp [hd, hue, hcc, enable_hist_eq, i915_dpst_restore_luma]
    · by_cases hv : s.saved.is_valid = false
      · simp [hd, hue, hcc, hv, enable_hist_eq, i915_dpst_restore_luma,
          eq_true_of_ne_false hcc]
      · have hc2 : e.edp_connector = true := eq_true_of_ne_false hcc
        have hv2 : s.saved.is_valid = true := eq_true_of_ne_false hv
        simp [hd, hue, hv2, hc2, enable_hist_eq, restore_luma_flags,
          restore_luma_of_valid]

theorem C7_witness :
    (i915_dpst_set_kernel_disable e_conn
        { dpst_init_state with kernel_disable := true } true =
      i915_dpst_set_kernel_disable e_conn
        { dpst_init_state with kernel_disable := false } true) ∧
    (i915_dpst_set_kernel_disable e_conn dpst_init_state true =
      ({ dpst_init_state with kernel_disable := true }, 0)) ∧
    ((i915_dpst_set_kernel_disable e_conn s_applied true).1.enabled = false ∧
     (i915_dpst_set_kernel_disable e_conn s_applied true).1.blc_adjustment =
       DPST_MAX_FACTOR ∧
     (i915_dpst_set_kernel_disable e_conn s_applied true).1.saved.is_valid =
       (s_applied.saved.is_valid ||
         !(s_applied.blm_hist_ctl &&& IE_MOD_TABLE_ENABLE == 0)) ∧
     (i915_dpst_set_kernel_disable e_conn s_applied true).2 = 0) ∧
    ((i915_dpst_set_kernel_disable e_conn s_user_on false).1.enabled = true ∧
     (i915_dpst_set_kernel_disable e_conn s_user_on false).1.blc_adjustment =
       (if e_conn.edp_connector && s_user_on.saved.is_valid then
          s_user_on.saved.blc_adjustment
        else DPST_MAX_FACTOR) ∧
     (i915_dpst_set_kernel_disable e_conn s_user_on false).2 = 0) :=
  ⟨(C7_level_triggered e_conn).1 dpst_init_state true true false rfl,
   (C7_level_triggered e_conn).2.1 dpst_init_state true rfl (by decide) (by decide),
   (C7_level_triggered e_conn).2.2.1 s_applied rfl rfl (by decide),
   (C7_level_triggered e_conn).2.2.2 s_user_on rfl (by decide)⟩

/-- Claim C7 as stated is false on the code: in the reachable state
`s_reapplied` (`kernel_disable` already false, `blc_adjustment = 8000`, a
stale valid snapshot with 7000), calling `set_kernel_disable(false)` — which
repeats the current flag value and so should be a no-op apart from recording
the flag — re-runs the enable and restore sequence and changes
`blc_adjustment` to the stale 7000. -/
theorem C7_counterexample :
    s_reapplied.kernel_disable = false ∧
    s_reapplied.blc_adjustment = 8000 ∧
    (i915_dpst_set_kernel_disable e_conn s_reapplied false).1.blc_adjustment = 7000 := by
  decide

/-- Claim C10: every hardware-enable sequence resets `blc_adjustment` to
`DPST_MAX_FACTOR` before any restore runs: (1) `enable_hist_interrupt`
itself always sets it to `DPST_MAX_FACTOR`; (2) `set_kernel_disable(false)`
with `user_enable` and no valid snapshot leaves it at `DPST_MAX_FACTOR`
regardless of its prior value; (3) so does `set_user_enable(true)` from a
non-enabled, non-kernel-disabled state. -/
theorem C10_enable_resets_blc :
    (∀ s : DpstState,
      (i915_dpst_enable_hist_interrupt s).1.blc_adjustment = DPST_MAX_FACTOR) ∧
    (∀ (e : DpstEnv) (s : DpstState),
      e.has_dpst = true → s.user_enable = true → s.saved.is_valid = false →
      (i915_dpst_set_kernel_disable e s false).1.blc_adjustment = DPST_MAX_FACTOR) ∧
    (∀ (e : DpstEnv) (s : DpstState),
      s.kernel_disable = false → s.enabled = false →
      (i915_dpst_set_user_enable e s true).1.blc_adjustment = DPST_MAX_FACTOR) := by
  refine ⟨fun s => rfl, ?_, ?_⟩
  · intro e s hd hue hv
    unfold i915_dpst_set_kernel_disable
    by_cases hcc : e.edp_connector = false <;>
      simp [hd, hue, hv, hcc, enable_hist_eq, i915_dpst_restore_luma]
  · intro e s hkd hen
    unfold i915_dpst_set_user_enable
    simp [hkd, hen, enable_hist_eq]

theorem C10_witness :
    (i915_dpst_enable_hist_interrupt s_applied).1.blc_adjustment = DPST_MAX_FACTOR ∧
    (i915_dpst_set_kernel_disable e_conn s_user_on false).1.blc_adjustment =
      DPST_MAX_FACTOR ∧
    (i915_dpst_set_user_enable e_conn dpst_init_state true).1.blc_adjustment =
      DPST_MAX_FACTOR :=
  ⟨C10_enable_resets_blc.1 s_applied,
   C10_enable_resets_blc.2.1 e_conn s_user_on rfl (by decide) (by decide),
   C10_enable_resets_blc.2.2 e_conn dpst_init_state rfl rfl⟩

theorem bin_loop_no_busy (reads : Nat → Nat) :
    ∀ (fuel : Nat) (st : BinLoopState),
      (∀ k, st.nreads ≤ k → reads k &&& BUSY_BIT = 0) →
      st.index ≤ HIST_BIN_COUNT → HIST_BIN_COUNT + 1 - st.index ≤ fuel →
      bin_loop reads fuel st = some
        { index := HIST_BIN_COUNT
          buf := fun j => if st.index ≤ j ∧ j < HIST_BIN_COUNT then
              reads (st.nreads + (j - st.index)) &&& BIN_COUNT_MASK
            else st.buf j
          ctl := st.ctl
          nreads := st.nreads + (HIST_BIN_COUNT - st.index) } := by
  have hBC : HIST_BIN_COUNT = 32 := rfl
  intro fuel
  induction fuel with
  | zero =>
    intro st h hi hf
    exact absurd hf (by omega)
  | succ fuel ih =>
    intro st h hi hf
    by_cases hidx : HIST_BIN_COUNT ≤ st.index
    · have hieq : st.index = HIST_BIN_COUNT := le_antisymm hi hidx
      simp only [bin_loop, if_pos hidx]
      refine congrArg some (BinLoopState.ext hieq ?_ rfl
        (show st.nreads = st.nreads + (HIST_BIN_COUNT - st.index) by omega))
      funext j
      exact (if_neg (by omega)).symm
    · simp only [bin_loop, if_neg hidx, if_pos (h st.nreads (le_refl _))]
      rw [ih _ (fun k hk => h k (Nat.le_of_succ_le hk))
        (show st.index + 1 ≤ HIST_BIN_COUNT by omega)
        (show HIST_BIN_COUNT + 1 - (st.index + 1) ≤ fuel by omega)]
      refine congrArg some (BinLoopState.ext rfl ?_ rfl
        (show st.nreads + 1 + (HIST_BIN_COUNT - (st.index + 1)) =
          st.nreads + (HIST_BIN_COUNT - st.index) by omega))
      funext j
      show (if st.index + 1 ≤ j ∧ j < HIST_BIN_COUNT then
              reads (st.nreads + 1 + (j - (st.index + 1))) &&& BIN_COUNT_MASK
            else if j = st.index then reads st.nreads &&& BIN_COUNT_MASK
            else st.buf j)
          = (if st.index ≤ j ∧ j < HIST_BIN_COUNT then
              reads (st.nreads + (j - st.index)) &&& BIN_COUNT_MASK
            else st.buf j)
      by_cases h1 : j = st.index
      · subst h1
        rw [if_neg (by omega), if_pos rfl, if_pos ⟨le_refl _, by omega⟩,
          Nat.sub_self, Nat.add_zero]
      · by_cases h2 : st.index + 1 ≤ j ∧ j < HIST_BIN_COUNT
        · rw [if_pos h2, if_pos ⟨by omega, h2.2⟩,
            show st.nreads + 1 + (j - (st.index + 1)) =
              st.nreads + (j - st.index) from by omega]
        · rw [if_neg h2, if_neg h1,
            if_neg (show ¬(st.index ≤ j ∧ j < HIST_BIN_COUNT) by omega)]

theorem bin_loop_always_busy (reads : Nat → Nat)
    (hb : ∀ k, reads k &&& BUSY_BIT ≠ 0) :
    ∀ (fuel : Nat) (st : BinLoopState), st.index < HIST_BIN_COUNT →
      bin_loop reads fuel st = none := by
  intro fuel
  induction fuel with
  | zero => intro st h; rfl
  | succ fuel ih =>
    intro st h
    simp only [bin_loop, if_neg (show ¬ HIST_BIN_COUNT ≤ st.index by omega),
      if_neg (hb st.nreads)]
    exact ih _ (show (0 : Nat) < HIST_BIN_COUNT by decide)

/-- Claim C8: `i915_dpst_get_bin_data` called while both `enabled` and
`user_enable` are false returns `-EINVAL` with the caller's output buffer
(and the state) untouched; whenever at least one of the two flags is true
it never returns `-EINVAL` (it either succeeds or, for a pathological busy
backend, does not terminate, modelled as fuel exhaustion). -/
theorem C8_fetch_histogram_gate :
    (∀ (reads : Nat → Nat) (fuel : Nat) (s : DpstState) (buf : Nat → Nat),
      s.enabled = false → s.user_enable = false →
      i915_dpst_get_bin_data reads fuel s buf = some (s, buf, 0, EINVAL)) ∧
    (∀ (reads : Nat → Nat) (fuel : Nat) (s : DpstState) (buf : Nat → Nat),
      (s.enabled || s.user_enable) = true →
      (i915_dpst_get_bin_data reads fuel s buf).map (fun t => t.2.2.2) ≠
        some EINVAL) := by
  constructor
  · intro reads fuel s buf he hu
    unfold i915_dpst_get_bin_data
    rw [if_pos (by simp [he, hu])]
  · intro reads fuel s buf h
    simp only [i915_dpst_get_bin_data]
    rw [if_neg (by simp [← Bool.not_or, h])]
    cases hloop : bin_loop reads fuel
        { index := 0, buf := buf,
          ctl := s.blm_hist_ctl &&&
            NOT32 (BIN_REGISTER_INDEX_MASK ||| BIN_REG_FUNCTION_SELECT_IE),
          nreads := 0 } with
    | none => simp [hloop]
    | some st => simp [hloop, EINVAL]

theorem C8_witness :
    i915_dpst_get_bin_data reads_clear 1 dpst_init_state buf0 =
      some (dpst_init_state, buf0, 0, EINVAL) ∧
    (i915_dpst_get_bin_data reads_clear 33 s_user_on buf0).map (fun t => t.2.2.2) ≠
      some EINVAL :=
  ⟨C8_fetch_histogram_gate.1 reads_clear 1 dpst_init_state buf0 rfl rfl,
   C8_fetch_histogram_gate.2 reads_clear 33 s_user_on buf0 (by decide)⟩

/-- Claim C9: the bin-read loop's busy retry.  (1) On a backend whose busy
bit is never set the loop performs exactly `HIST_BIN_COUNT` reads, filling
the buffer with the masked counts in order; (2) at the function level such a
run returns success after exactly `HIST_BIN_COUNT` reads; (3) on a backend
whose busy bit is always set the function never terminates, for every fuel
bound — the retry has no bounded attempt count; (4) a busy read restarts the
entire scan from bin 0 (after one busy first read, the final buffer is
filled from reads 1..HIST_BIN_COUNT and the index field of the control
register was cleared), rather than resuming at the failed index. -/
theorem C9_busy_retry_unbounded :
    (∀ (reads buf : Nat → Nat) (ctl fuel : Nat),
      (∀ k, reads k &&& BUSY_BIT = 0) → HIST_BIN_COUNT + 1 ≤ fuel →
      bin_loop reads fuel { index := 0, buf := buf, ctl := ctl, nreads := 0 } =
        some { index := HIST_BIN_COUNT
               buf := fun j => if j < HIST_BIN_COUNT then
                   reads j &&& BIN_COUNT_MASK else buf j
               ctl := ctl
               nreads := HIST_BIN_COUNT }) ∧
    (∀ (reads : Nat → Nat) (fuel : Nat) (s : DpstState) (buf : Nat → Nat),
      s.enabled = true → HIST_BIN_COUNT + 1 ≤ fuel →
      (∀ k, reads k &&& BUSY_BIT = 0) →
      (i915_dpst_get_bin_data reads fuel s buf).map (fun t => (t.2.2.1, t.2.2.2)) =
        some (HIST_BIN_COUNT, 0)) ∧
    (∀ (reads : Nat → Nat) (fuel : Nat) (s : DpstState) (buf : Nat → Nat),
      s.enabled = true → (∀ k, reads k &&& BUSY_BIT ≠ 0) →
      i915_dpst_get_bin_data reads fuel s buf = none) ∧
    (∀ (reads buf : Nat → Nat) (ctl fuel : Nat),
      reads 0 &&& BUSY_BIT ≠ 0 → (∀ k, 1 ≤ k → reads k &&& BUSY_BIT = 0) →
      HIST_BIN_COUNT + 2 ≤ fuel →
      bin_loop reads fuel { index := 0, buf := buf, ctl := ctl, nreads := 0 } =
        some { index := HIST_BIN_COUNT
               buf := fun j => if j < HIST_BIN_COUNT then
                   reads (1 + j) &&& BIN_COUNT_MASK else buf j
               ctl := ctl &&& NOT32 BIN_REGISTER_INDEX_MASK
               nreads := HIST_BIN_COUNT + 1 }) := by
  have hBC : HIST_BIN_COUNT = 32 := rfl
  refine ⟨?_, ?_, ?_, ?_⟩
  · intro reads buf ctl fuel hb hf
    rw [bin_loop_no_busy reads fuel _ (fun k _ => hb k)
      (show (0 : Nat) ≤ HIST_BIN_COUNT by decide)
      (show HIST_BIN_COUNT + 1 - 0 ≤ fuel by omega)]
    refine congrArg some (BinLoopState.ext rfl ?_ rfl
      (show 0 + (HIST_BIN_COUNT - 0) = HIST_BIN_COUNT by omega))
    funext j
    show (if 0 ≤ j ∧ j < HIST_BIN_COUNT then
        reads (0 + (j - 0)) &&& BIN_COUNT_MASK else buf j) = _
    simp [Nat.zero_le]
  · intro reads fuel s buf he hf hb
    simp only [i915_dpst_get_bin_data]
    rw [if_neg (by simp [he])]
    rw [bin_loop_no_busy reads fuel _ (fun k _ => hb k)
      (show (0 : Nat) ≤ HIST_BIN_COUNT by decide)
      (show HIST_BIN_COUNT + 1 - 0 ≤ fuel by omega)]
    simp
  · intro reads fuel s buf he hb
    simp only [i915_dpst_get_bin_data]
    rw [if_neg (by simp [he])]
    rw [bin_loop_always_busy reads hb fuel _
      (show (0 : Nat) < HIST_BIN_COUNT by decide)]
  · intro reads buf ctl fuel h0 h1 hf
    cases fuel with
    | zero => exact absurd hf (by omega)
    | succ fuel =>
      simp only [bin_loop, if_neg (show ¬ HIST_BIN_COUNT ≤ 0 by decide),
        if_neg h0]
      rw [bin_loop_no_busy reads fuel _ (fun k hk => h1 k hk)
        (show (0 : Nat) ≤ HIST_BIN_COUNT by decide)
        (show HIST_BIN_COUNT + 1 - 0 ≤ fuel by omega)]
      refine congrArg some (BinLoopState.ext rfl ?_ rfl
        (show 1 + (HIST_BIN_COUNT - 0) = HIST_BIN_COUNT + 1 by omega))
      funext j
      show (if 0 ≤ j ∧ j < HIST_BIN_COUNT then
          reads (1 + (j - 0)) &&& BIN_COUNT_MASK else buf j) = _
      simp [Nat.zero_le]

theorem C9_witness :
    (bin_loop reads_clear 33 { index := 0, buf := buf0, ctl := 0, nreads := 0 } =
      some { index := HIST_BIN_COUNT
             buf := fun j => if j < HIST_BIN_COUNT then
                 reads_clear j &&& BIN_COUNT_MASK else buf0 j
             ctl := 0
             nreads := HIST_BIN_COUNT }) ∧
    ((i915_dpst_get_bin_data reads_clear 33 s_user_on buf0).map
        (fun t => (t.2.2.1, t.2.2.2)) = some (HIST_BIN_COUNT, 0)) ∧
    (i915_dpst_get_bin_data reads_busy 17 s_user_on buf0 = none) ∧
    (bin_loop reads_busy_first 34 { index := 0, buf := buf0, ctl := 0, nreads := 0 } =
      some { index := HIST_BIN_COUNT
             buf := fun j => if j < HIST_BIN_COUNT then
                 reads_busy_first (1 + j) &&& BIN_COUNT_MASK else buf0 j
             ctl := 0 &&& NOT32 BIN_REGISTER_INDEX_MASK
             nreads := HIST_BIN_COUNT + 1 }) :=
  ⟨C9_busy_retry_unbounded.1 reads_clear buf0 0 33
      (fun k => by simp [reads_clear]) (by decide),
   C9_busy_retry_unbounded.2.1 reads_clear 33 s_user_on buf0 (by decide) (by decide)
      (fun k => by simp [reads_clear]),
   C9_busy_retry_unbounded.2.2.1 reads_busy 17 s_user_on buf0 (by decide)
      (fun k => by simp only [reads_busy]; decide),
   C9_busy_retry_unbounded.2.2.2 reads_busy_first buf0 0 34 (by decide)
      (fun k hk => by
        simp only [reads_busy_first]
        rw [if_neg (by omega)]
        simp)
      (by decide)⟩
